import Mathlib

/-!
Verification of the super-sales-manager code-generator repository:
a shallow embedding of the license-code lifecycle implemented in
`code_generator_app.py` (desktop application) and
`code_generator_server.py` (standalone Flask server), together with
theorems about code generation, creation, redemption, the HTTP contract
and the observation feed.
-/

namespace SalesCodeGen

/-- Python string.ascii_lowercase. -/
def ascii_lowercase : String := "abcdefghijklmnopqrstuvwxyz"

/-- Python string.ascii_uppercase. -/
def ascii_uppercase : String := "ABCDEFGHIJKLMNOPQRSTUVWXYZ"

/-- Python string.ascii_letters. -/
def ascii_letters : String := ascii_lowercase ++ ascii_uppercase

/-- Python string.digits. -/
def digits : String := "0123456789"

/-- Python string.punctuation: the printable ASCII characters (codes 33..126)
that are not alphanumeric. -/
def punctuation : String :=
  String.mk (((List.range 127).filter (fun n =>
    33 ≤ n ∧ ¬ ((48 ≤ n ∧ n ≤ 57) ∨ (65 ≤ n ∧ n ≤ 90) ∨ (97 ≤ n ∧ n ≤ 122)))).map
    Char.ofNat)

/-- The extra symbol characters appended to the desktop application alphabet
(GeneratorConfig.CODE_CHARACTERS in code_generator_app.py). -/
def app_extra_characters : String := "!@#$%^&*()_+-=[]\x7b\x7d|;:,.<>?"

/-- GeneratorConfig.CODE_CHARACTERS of the desktop application:
string.ascii_letters + string.digits + the extra symbols. -/
def appCodeCharacters : String := ascii_letters ++ digits ++ app_extra_characters

/-- GeneratorConfig.CODE_LENGTH of the desktop application. -/
def appCodeLength : Nat := 64

/-- GeneratorConfig.CODE_CHARACTERS of the standalone server:
string.ascii_letters + string.digits + string.punctuation. -/
def serverCodeCharacters : String := ascii_letters ++ digits ++ punctuation

/-- GeneratorConfig.CODE_LENGTH of the standalone server. -/
def serverCodeLength : Nat := 50

/-- random.choice(chars): one uniformly random character of `chars`.  The
random draw is modelled by the natural number `r`, reduced modulo the
alphabet size to an index. -/
def random_choice (chars : String) (r : Nat) : Char :=
  chars.data.getD (r % chars.data.length) 'a'

/-- The code generator shared by `_generate_random_code` (desktop app) and
`generate_random_code` (server): the join of `len` independent
random.choice draws from `chars`.  `r i` is the i-th random draw. -/
def generate_random_code (chars : String) (len : Nat) (r : Nat → Nat) : String :=
  String.mk ((List.range len).map (fun i => random_choice chars (r i)))

/-- The `generation_method` field values written by the creation paths. -/
inductive GenMethod
  | manual
  | automatic
  deriving DecidableEq, Repr

/-- A stored timestamp: either the sentinel firestore.SERVER_TIMESTAMP
(resolved by the store server-side clock) or a client-side datetime.now()
value. -/
inductive DateValue
  | serverTimestamp
  | clientTime (t : Nat)
  deriving DecidableEq, Repr

/-- A document of the `license_codes` collection: the union of the fields
written by the three creation paths and by redemption. -/
structure LicenseRecord where
  license_type : String
  used_globally : Bool
  generation_method : Option GenMethod
  generated_date : DateValue
  used_by_machine_id : Option String
  used_date : Option DateValue
  email : Option String
  expiration_date : Option Nat
  created_at : Option DateValue
  record_status : Option String
  deriving DecidableEq, Repr

/-- The `license_codes` Firestore collection, as an association list from
document id (the code) to document fields. -/
abbrev Store := List (String × LicenseRecord)

/-- doc_ref.get(): point lookup by document id. -/
def docGet : Store → String → Option LicenseRecord
  | [], _ => none
  | (k, v) :: rest, key => if k = key then some v else docGet rest key

/-- doc_ref.set(fields): write the document, replacing it entirely when the
id is already present. -/
def docSet : Store → String → LicenseRecord → Store
  | [], key, v => [(key, v)]
  | (k, w) :: rest, key, v =>
      if k = key then (key, v) :: rest else (k, w) :: docSet rest key v

/-- doc_ref.update(partial-fields): modify the named fields of an existing
document, leaving the rest of the store unchanged. -/
def docUpdate : Store → String → (LicenseRecord → LicenseRecord) → Store
  | [], _, _ => []
  | (k, w) :: rest, key, f =>
      if k = key then (k, f w) :: rest else (k, w) :: docUpdate rest key f

/-- One day, in seconds (timedelta(days=1)). -/
def day : Nat := 86400

/-- calculate_expiration_date of code_generator_server.py, with the
datetime.now() reading made explicit as `now`. -/
def calculate_expiration_date (license_type : String) (now : Nat) : Nat :=
  if license_type = "monthly" then now + 30 * day
  else if license_type = "annual" then now + 365 * day
  else now + 7 * day

/-- The document written by `_generate_and_add_code_manual`. -/
def manualRecord (license_type : String) : LicenseRecord :=
  { license_type := license_type
    used_globally := false
    generation_method := some GenMethod.manual
    generated_date := DateValue.serverTimestamp
    used_by_machine_id := none
    used_date := none
    email := none
    expiration_date := none
    created_at := none
    record_status := none }

/-- The document written by `_generate_and_add_code_automatic`. -/
def automaticAppRecord (license_type : String) : LicenseRecord :=
  { license_type := license_type
    used_globally := false
    generation_method := some GenMethod.automatic
    generated_date := DateValue.serverTimestamp
    used_by_machine_id := none
    used_date := none
    email := none
    expiration_date := none
    created_at := none
    record_status := none }

/-- The document written by the server `generate_code_endpoint`. -/
def serverRecord (license_type user_email : String) (now : Nat) : LicenseRecord :=
  { license_type := license_type
    used_globally := false
    generation_method := some GenMethod.automatic
    generated_date := DateValue.serverTimestamp
    used_by_machine_id := none
    used_date := none
    email := some user_email
    expiration_date := some (calculate_expiration_date license_type now)
    created_at := some (DateValue.clientTime now)
    record_status := some "active" }

/-- `_generate_and_add_code_manual` of the desktop app: generate a code,
look it up, recurse on collision (the literal source recursion is
unbounded; `fuel` counts attempts and a `none` result means the literal
recursion has not terminated within that many attempts), otherwise write
the manual record.  `rand attempt` is the random stream of that attempt. -/
def generate_and_add_code_manual (rand : Nat → Nat → Nat) (license_type : String) :
    Nat → Nat → Store → Option (String × Store)
  | 0, _, _ => none
  | fuel + 1, attempt, store =>
      let new_code := generate_random_code appCodeCharacters appCodeLength (rand attempt)
      match docGet store new_code with
      | some _ => generate_and_add_code_manual rand license_type fuel (attempt + 1) store
      | none => some (new_code, docSet store new_code (manualRecord license_type))

/-- `_generate_and_add_code_automatic` of the desktop app: generate a code
and write the automatic record unconditionally (the source performs no
existence check on this path). -/
def generate_and_add_code_automatic (rand : Nat → Nat) (license_type user_email : String)
    (store : Store) : String × Store :=
  let new_code := generate_random_code appCodeCharacters appCodeLength rand
  (new_code, docSet store new_code (automaticAppRecord license_type))

/-- An HTTP response, keeping the status code and the JSON body fields the
routes actually emit: "code", "status" and "error". -/
structure HttpResponse where
  httpStatus : Nat
  code : Option String
  statusField : Option String
  errorField : Option String
  deriving DecidableEq, Repr

/-- A /generate_code request body: the two JSON fields the endpoints read. -/
structure RequestBody where
  license_type : Option String
  user_email : Option String
  deriving DecidableEq, Repr

/-- `generate_code_endpoint` of code_generator_server.py.  `firebaseInitialized`
is the module flag checked first; `storeOk` models whether the Firestore
operations inside the try block raise; `now` is datetime.now(); the source
retries by re-entering the endpoint on collision, which is again unbounded
(`none` = still retrying after `fuel` attempts). -/
def generate_code_endpoint (firebaseInitialized : Bool) (rand : Nat → Nat → Nat)
    (now : Nat) (storeOk : Bool) (body : RequestBody) :
    Nat → Nat → Store → Option (HttpResponse × Store)
  | 0, _, _ => none
  | fuel + 1, attempt, store =>
      if firebaseInitialized = false then
        some (⟨500, none, none, some "Firebase is not initialized."⟩, store)
      else
        match body.license_type, body.user_email with
        | some license_type, some user_email =>
            if storeOk = false then
              some (⟨500, none, none, some "Failed to add code to Firestore."⟩, store)
            else
              match docGet store
                  (generate_random_code serverCodeCharacters serverCodeLength (rand attempt)) with
              | some _ =>
                  generate_code_endpoint firebaseInitialized rand now storeOk body
                    fuel (attempt + 1) store
              | none =>
                  some (⟨200,
                      some (generate_random_code serverCodeCharacters serverCodeLength
                        (rand attempt)),
                      none, none⟩,
                    docSet store
                      (generate_random_code serverCodeCharacters serverCodeLength (rand attempt))
                      (serverRecord license_type user_email now))
        | _, _ =>
            some (⟨400, none, none, some "Missing license_type or user_email in request body."⟩,
              store)

/-- `health_check` of code_generator_server.py: 200 with body status "ok". -/
def health_check : HttpResponse := ⟨200, none, some "ok", none⟩

/-- `generate_code_endpoint` of the desktop app (the Flask route registered in
`_start_web_server`): on a valid body it only schedules
`_generate_and_add_code_automatic` onto the Tk main loop and immediately
answers 200 with an acknowledgment body that carries no code; the second
component is the deferred generation task, when one was scheduled. -/
def app_generate_code_endpoint (body : RequestBody) :
    HttpResponse × Option (String × String) :=
  match body.license_type, body.user_email with
  | some license_type, some user_email =>
      (⟨200, none, some "Code generation request received and is being processed.", none⟩,
        some (license_type, user_email))
  | _, _ => (⟨400, none, none, some "Missing license_type or user_email in request."⟩, none)

/-- `_send_email` (server) and `_send_email_notification` (desktop app):
attempt SMTP delivery; every exception is caught and only logged, so the
call reports whether delivery succeeded but never raises and never touches
the store. -/
def send_email (smtpDeliveryOk : Bool) (toEmail subject bodyHtml : String) : Bool :=
  smtpDeliveryOk

/-- The desktop automatic issuance pipeline: store the record, then send the
notification email; returns the code, the final store and whether the
email was delivered. -/
def automatic_issuance (rand : Nat → Nat) (license_type user_email : String)
    (store : Store) (smtpDeliveryOk : Bool) : String × Store × Bool :=
  let res := generate_and_add_code_automatic rand license_type user_email store
  let delivered :=
    send_email smtpDeliveryOk user_email "Your New Sales Manager App License Code" ""
  (res.1, res.2, delivered)

/-- The server issuance pipeline: run the endpoint, then, exactly when a code
was stored and returned, send the notification email asynchronously. -/
def server_issuance (firebaseInitialized : Bool) (rand : Nat → Nat → Nat) (now : Nat)
    (storeOk : Bool) (body : RequestBody) (fuel : Nat) (store : Store)
    (smtpDeliveryOk : Bool) : Option (HttpResponse × Store × Bool) :=
  match generate_code_endpoint firebaseInitialized rand now storeOk body fuel 0 store with
  | none => none
  | some (resp, store2) =>
      match resp.code, body.user_email with
      | some new_code, some user_email =>
          some (resp, store2,
            send_email smtpDeliveryOk user_email "Your Super Sales Manager Code" new_code)
      | _, _ => some (resp, store2, false)

/-- The typed redemption outcomes of §6 of the spec. -/
inductive RedeemResult
  | success
  | alreadyRedeemed
  | codeNotFound
  deriving DecidableEq, Repr

/-- Modelled from the spec: `redeem(code, machine_id)` is performed by the
licensed client application, whose code is not part of this repository;
§4.2 gives its contract — look the record up by code (CodeNotFound when
absent), reject with AlreadyRedeemed when `used_globally` is already true
without recording the new machine_id, otherwise set `used_globally=true`,
`used_by_machine_id=machine_id` and `used_date` to the store server clock
in a single update. -/
def redeem (code machine_id : String) (store : Store) : RedeemResult × Store :=
  match docGet store code with
  | none => (RedeemResult.codeNotFound, store)
  | some r =>
      if r.used_globally then (RedeemResult.alreadyRedeemed, store)
      else
        (RedeemResult.success,
          docUpdate store code (fun rec =>
            { rec with
              used_globally := true
              used_by_machine_id := some machine_id
              used_date := some DateValue.serverTimestamp }))

/-- The generation method the observation feed attributes to a record:
code_data.get("generation_method", "manual"). -/
def feedMethod (r : LicenseRecord) : GenMethod :=
  r.generation_method.getD GenMethod.manual

/-- The manual partition derived by `_update_codes_tree_from_snapshot`: the
snapshot documents whose (defaulted) generation method is manual, in
snapshot order. -/
def manual_partition (snapshot : Store) : Store :=
  snapshot.filter (fun doc => feedMethod doc.2 = GenMethod.manual)

/-- The automatic partition derived by `_update_codes_tree_from_snapshot`. -/
def automatic_partition (snapshot : Store) : Store :=
  snapshot.filter (fun doc => feedMethod doc.2 = GenMethod.automatic)

/-- The all-first-character code the desktop generator emits when every
random draw is 0: 64 copies of the first alphabet character. -/
def appConstCode : String := String.mk (List.replicate appCodeLength 'a')

/-- The all-first-character code the server generator emits when every
random draw is 0: 50 copies of the first alphabet character. -/
def serverConstCode : String := String.mk (List.replicate serverCodeLength 'a')

/-! ### Store lemmas -/

theorem docGet_docSet_self (s : Store) (k : String) (v : LicenseRecord) :
    docGet (docSet s k v) k = some v := by
  induction s with
  | nil => simp [docSet, docGet]
  | cons hd tl ih =>
      obtain ⟨k2, v2⟩ := hd
      by_cases h : k2 = k
      · subst h
        simp [docSet, docGet]
      · simp [docSet, docGet, h, ih]

theorem docGet_docSet_ne (s : Store) (k key : String) (v : LicenseRecord)
    (h : key ≠ k) : docGet (docSet s k v) key = docGet s key := by
  have hks : k ≠ key := Ne.symm h
  induction s with
  | nil => simp [docSet, docGet, hks]
  | cons hd tl ih =>
      obtain ⟨k2, v2⟩ := hd
      by_cases h2 : k2 = k
      · subst h2
        simp [docSet, docGet, hks]
      · simp only [docSet, if_neg h2, docGet]
        by_cases h3 : k2 = key
        · simp [h3]
        · simp [h3, ih]

theorem docGet_docUpdate_self (s : Store) (k : String) (f : LicenseRecord → LicenseRecord)
    (r : LicenseRecord) (h : docGet s k = some r) :
    docGet (docUpdate s k f) k = some (f r) := by
  induction s with
  | nil => simp [docGet] at h
  | cons hd tl ih =>
      obtain ⟨k2, v2⟩ := hd
      by_cases h2 : k2 = k
      · subst h2
        simp only [docGet, if_pos rfl] at h
        simp only [docUpdate, if_pos rfl, docGet, if_pos rfl]
        exact congrArg (fun x => some (f x)) (Option.some.inj h)
      · simp only [docGet, if_neg h2] at h
        simp only [docUpdate, if_neg h2, docGet, if_neg h2]
        exact ih h

/-! ### Generator lemmas -/

theorem generate_random_code_length (chars : String) (len : Nat) (r : Nat → Nat) :
    (generate_random_code chars len r).length = len := by
  simp [generate_random_code, String.length]

theorem random_choice_mem (chars : String) (r : Nat) (h : 0 < chars.data.length) :
    random_choice chars r ∈ chars.data := by
  unfold random_choice
  have hlt : r % chars.data.length < chars.data.length := Nat.mod_lt _ h
  rw [List.getD_eq_getElem _ _ hlt]
  exact List.getElem_mem _

theorem generate_random_code_mem (chars : String) (len : Nat) (r : Nat → Nat)
    (h : 0 < chars.data.length) :
    ∀ ch ∈ (generate_random_code chars len r).data, ch ∈ chars.data := by
  intro ch hch
  simp only [generate_random_code, List.mem_map, List.mem_range] at hch
  obtain ⟨i, _, rfl⟩ := hch
  exact random_choice_mem chars (r i) h

/-! ### Claim C5 -/

/-- C5: calculate_expiration_date evaluated at time T returns T plus 30 days when
license_type is "monthly", T plus 365 days when it is "annual", and T plus 7 days
for every other license_type. -/
theorem C5_expiration (T : Nat) :
    calculate_expiration_date "monthly" T = T + 30 * day ∧
    calculate_expiration_date "annual" T = T + 365 * day ∧
    ∀ license_type : String, license_type ≠ "monthly" → license_type ≠ "annual" →
      calculate_expiration_date license_type T = T + 7 * day := by
  refine ⟨rfl, ?_, ?_⟩
  · unfold calculate_expiration_date
    rw [if_neg (by decide), if_pos rfl]
  · intro lt h1 h2
    unfold calculate_expiration_date
    rw [if_neg h1, if_neg h2]

/-- C5 witness: the three cases of C5_expiration at T = 1000 with the
unrecognized license_type "unknown". -/
theorem C5_expiration_witness :
    calculate_expiration_date "monthly" 1000 = 1000 + 30 * day ∧
    calculate_expiration_date "annual" 1000 = 1000 + 365 * day ∧
    calculate_expiration_date "unknown" 1000 = 1000 + 7 * day := by
  obtain ⟨h1, h2, h3⟩ := C5_expiration 1000
  exact ⟨h1, h2, h3 "unknown" (by decide) (by decide)⟩

/-! ### Claim C2 -/

/-- C2: after a successful redeem(code, m1), a second redeem(code, m2) with m1 ≠ m2
fails with AlreadyRedeemed, leaves the store untouched, and the record keeps
used_by_machine_id = m1. -/
theorem C2_redeem_at_most_once (code m1 m2 : String) (store : Store)
    (hne : m1 ≠ m2)
    (hsucc : (redeem code m1 store).1 = RedeemResult.success) :
    (redeem code m2 (redeem code m1 store).2).1 = RedeemResult.alreadyRedeemed ∧
    (redeem code m2 (redeem code m1 store).2).2 = (redeem code m1 store).2 ∧
    Option.map LicenseRecord.used_by_machine_id
        (docGet (redeem code m2 (redeem code m1 store).2).2 code) =
      some (some m1) := by
  cases hg : docGet store code with
  | none => simp [redeem, hg] at hsucc
  | some r =>
      by_cases hu : r.used_globally
      · simp [redeem, hg, hu] at hsucc
      · set s1 := (redeem code m1 store).2 with hs1def
        have hs1 : s1 =
            docUpdate store code (fun rec =>
              { rec with
                used_globally := true
                used_by_machine_id := some m1
                used_date := some DateValue.serverTimestamp }) := by
          rw [hs1def]
          simp [redeem, hg, hu]
        have hg2 : docGet s1 code =
            some { r with
              used_globally := true
              used_by_machine_id := some m1
              used_date := some DateValue.serverTimestamp } := by
          rw [hs1]
          exact docGet_docUpdate_self store code _ r hg
        have hstep : redeem code m2 s1 = (RedeemResult.alreadyRedeemed, s1) := by
          unfold redeem
          rw [hg2]
          rfl
        refine ⟨by rw [hstep], by rw [hstep], ?_⟩
        rw [hstep]
        rw [hg2]
        rfl

/-- C2 witness: C2_redeem_at_most_once on the one-record store holding a fresh
manual "CODE1" record, with machines "M1" and "M2". -/
theorem C2_redeem_at_most_once_witness :
    (redeem "CODE1" "M2"
        (redeem "CODE1" "M1" [("CODE1", manualRecord "monthly")]).2).1 =
      RedeemResult.alreadyRedeemed ∧
    (redeem "CODE1" "M2"
        (redeem "CODE1" "M1" [("CODE1", manualRecord "monthly")]).2).2 =
      (redeem "CODE1" "M1" [("CODE1", manualRecord "monthly")]).2 ∧
    Option.map LicenseRecord.used_by_machine_id
        (docGet
          (redeem "CODE1" "M2"
            (redeem "CODE1" "M1" [("CODE1", manualRecord "monthly")]).2).2 "CODE1") =
      some (some "M1") :=
  C2_redeem_at_most_once "CODE1" "M1" "M2" [("CODE1", manualRecord "monthly")]
    (by decide) (by decide)

/-! ### Claim C8 -/

/-- C8: every snapshot document is placed in exactly one of the two partitions
according to its generation_method, and a document whose generation_method is
unset lands in the manual partition. -/
theorem C8_partitions (snapshot : Store) (doc : String × LicenseRecord)
    (hmem : doc ∈ snapshot) :
    (doc ∈ manual_partition snapshot ↔ feedMethod doc.2 = GenMethod.manual) ∧
    (doc ∈ automatic_partition snapshot ↔ feedMethod doc.2 = GenMethod.automatic) ∧
    ((doc ∈ manual_partition snapshot ∧ doc ∉ automatic_partition snapshot) ∨
      (doc ∈ automatic_partition snapshot ∧ doc ∉ manual_partition snapshot)) ∧
    (doc.2.generation_method = none → doc ∈ manual_partition snapshot) := by
  have hm : doc ∈ manual_partition snapshot ↔ feedMethod doc.2 = GenMethod.manual := by
    simp [manual_partition, List.mem_filter, hmem]
  have ha : doc ∈ automatic_partition snapshot ↔ feedMethod doc.2 = GenMethod.automatic := by
    simp [automatic_partition, List.mem_filter, hmem]
  refine ⟨hm, ha, ?_, ?_⟩
  · cases hfm : feedMethod doc.2 with
    | manual =>
        refine Or.inl ⟨hm.mpr hfm, fun hc => ?_⟩
        rw [ha, hfm] at hc
        exact GenMethod.noConfusion hc
    | automatic =>
        refine Or.inr ⟨ha.mpr hfm, fun hc => ?_⟩
        rw [hm, hfm] at hc
        exact GenMethod.noConfusion hc
  · intro hnone
    refine hm.mpr ?_
    simp [feedMethod, hnone]

/-- C8 witness: C8_partitions on a two-document snapshot whose first document has
no generation_method (legacy) and whose second is automatic. -/
theorem C8_partitions_witness :
    (("LEGACY", { manualRecord "monthly" with generation_method := none }) ∈
        manual_partition
          [("LEGACY", { manualRecord "monthly" with generation_method := none }),
            ("AUTO1", automaticAppRecord "annual")] ↔
      feedMethod { manualRecord "monthly" with generation_method := none } =
        GenMethod.manual) ∧
    (("LEGACY", { manualRecord "monthly" with generation_method := none }) ∈
        automatic_partition
          [("LEGACY", { manualRecord "monthly" with generation_method := none }),
            ("AUTO1", automaticAppRecord "annual")] ↔
      feedMethod { manualRecord "monthly" with generation_method := none } =
        GenMethod.automatic) ∧
    ((("LEGACY", { manualRecord "monthly" with generation_method := none }) ∈
          manual_partition
            [("LEGACY", { manualRecord "monthly" with generation_method := none }),
              ("AUTO1", automaticAppRecord "annual")] ∧
        ("LEGACY", { manualRecord "monthly" with generation_method := none }) ∉
          automatic_partition
            [("LEGACY", { manualRecord "monthly" with generation_method := none }),
              ("AUTO1", automaticAppRecord "annual")]) ∨
      (("LEGACY", { manualRecord "monthly" with generation_method := none }) ∈
          automatic_partition
            [("LEGACY", { manualRecord "monthly" with generation_method := none }),
              ("AUTO1", automaticAppRecord "annual")] ∧
        ("LEGACY", { manualRecord "monthly" with generation_method := none }) ∉
          manual_partition
            [("LEGACY", { manualRecord "monthly" with generation_method := none }),
              ("AUTO1", automaticAppRecord "annual")])) ∧
    (({ manualRecord "monthly" with
          generation_method := none : LicenseRecord }).generation_method = none →
      ("LEGACY", { manualRecord "monthly" with generation_method := none }) ∈
        manual_partition
          [("LEGACY", { manualRecord "monthly" with generation_method := none }),
            ("AUTO1", automaticAppRecord "annual")]) :=
  C8_partitions
    [("LEGACY", { manualRecord "monthly" with generation_method := none }),
      ("AUTO1", automaticAppRecord "annual")]
    ("LEGACY", { manualRecord "monthly" with generation_method := none })
    (by decide)

/-! ### Inversion lemmas for the creation paths -/

/-- Whenever the manual creation recursion terminates, the returned code was
generated at some attempt, was not present in the store, and the final store
is the input store with exactly the manual record added at that code. -/
theorem generate_and_add_code_manual_inv (rand : Nat → Nat → Nat) (license_type : String) :
    ∀ fuel attempt store new_code store2,
      generate_and_add_code_manual rand license_type fuel attempt store =
        some (new_code, store2) →
      ∃ k, new_code = generate_random_code appCodeCharacters appCodeLength (rand k) ∧
        docGet store new_code = none ∧
        store2 = docSet store new_code (manualRecord license_type) := by
  intro fuel
  induction fuel with
  | zero =>
      intro attempt store nc s2 h
      simp [generate_and_add_code_manual] at h
  | succ n ih =>
      intro attempt store nc s2 h
      rw [generate_and_add_code_manual] at h
      cases hg : docGet store
          (generate_random_code appCodeCharacters appCodeLength (rand attempt)) with
      | some r =>
          rw [hg] at h
          exact ih (attempt + 1) store nc s2 h
      | none =>
          rw [hg] at h
          obtain ⟨h1, h2⟩ := Prod.mk.injEq .. ▸ Option.some.inj h
          subst h1
          exact ⟨attempt, rfl, hg, h2.symm⟩

/-- Full case analysis of a terminating run of the server endpoint: either the
500 firebase-uninitialized reply, the 400 missing-field reply, the 500
store-failure reply (all leaving the store untouched), or the 200 reply
carrying a freshly generated absent code that the final store gains. -/
theorem generate_code_endpoint_inv (firebaseInitialized : Bool) (rand : Nat → Nat → Nat)
    (now : Nat) (storeOk : Bool) (body : RequestBody) :
    ∀ fuel attempt store resp store2,
      generate_code_endpoint firebaseInitialized rand now storeOk body fuel attempt store =
        some (resp, store2) →
      (firebaseInitialized = false ∧
        resp = ⟨500, none, none, some "Firebase is not initialized."⟩ ∧ store2 = store) ∨
      (firebaseInitialized = true ∧
        (body.license_type = none ∨ body.user_email = none) ∧
        resp = ⟨400, none, none, some "Missing license_type or user_email in request body."⟩ ∧
        store2 = store) ∨
      (firebaseInitialized = true ∧ storeOk = false ∧
        (∃ lt ue, body.license_type = some lt ∧ body.user_email = some ue) ∧
        resp = ⟨500, none, none, some "Failed to add code to Firestore."⟩ ∧
        store2 = store) ∨
      (firebaseInitialized = true ∧ storeOk = true ∧
        ∃ lt ue k,
          body.license_type = some lt ∧ body.user_email = some ue ∧
          resp = ⟨200,
            some (generate_random_code serverCodeCharacters serverCodeLength (rand k)),
            none, none⟩ ∧
          docGet store (generate_random_code serverCodeCharacters serverCodeLength (rand k)) =
            none ∧
          store2 = docSet store
            (generate_random_code serverCodeCharacters serverCodeLength (rand k))
            (serverRecord lt ue now)) := by
  obtain ⟨blt, bue⟩ := body
  intro fuel
  induction fuel with
  | zero =>
      intro attempt store resp s2 h
      simp [generate_code_endpoint] at h
  | succ n ih =>
      intro attempt store resp s2 h
      rw [generate_code_endpoint] at h
      split at h
      next hfb =>
        obtain ⟨h1, h2⟩ := Prod.mk.injEq .. ▸ Option.some.inj h
        exact Or.inl ⟨hfb, h1.symm, h2.symm⟩
      next hfb =>
        have hfbt : firebaseInitialized = true := by
          cases firebaseInitialized
          · exact absurd rfl hfb
          · rfl
        split at h
        next lt ue hbl hbu =>
          split at h
          next hso =>
            obtain ⟨h1, h2⟩ := Prod.mk.injEq .. ▸ Option.some.inj h
            exact Or.inr (Or.inr (Or.inl
              ⟨hfbt, hso, ⟨lt, ue, hbl, hbu⟩, h1.symm, h2.symm⟩))
          next hso =>
            have hsot : storeOk = true := by
              cases storeOk
              · exact absurd rfl hso
              · rfl
            cases hg : docGet store
                (generate_random_code serverCodeCharacters serverCodeLength
                  (rand attempt)) with
            | some r =>
                rw [hg] at h
                exact ih (attempt + 1) store resp s2 h
            | none =>
                rw [hg] at h
                obtain ⟨h1, h2⟩ := Prod.mk.injEq .. ▸ Option.some.inj h
                exact Or.inr (Or.inr (Or.inr
                  ⟨hfbt, hsot, lt, ue, attempt, hbl, hbu, h1.symm, hg, h2.symm⟩))
        next hmiss =>
          obtain ⟨h1, h2⟩ := Prod.mk.injEq .. ▸ Option.some.inj h
          refine Or.inr (Or.inl ⟨hfbt, ?_, h1.symm, h2.symm⟩)
          cases blt with
          | none => exact Or.inl rfl
          | some lt =>
              cases bue with
              | none => exact Or.inr rfl
              | some ue => exact (hmiss lt ue rfl rfl).elim

/-! ### Claim C9 -/

/-- C9: on both channels, the outcome of the email-notification step changes
neither the issuance result nor the final store, and the record stored by the
desktop automatic path is still present at its code after the email step. -/
theorem C9_email_failure_harmless (rand : Nat → Nat) (license_type user_email : String)
    (store : Store) (firebaseInitialized : Bool) (randS : Nat → Nat → Nat) (now : Nat)
    (storeOk : Bool) (body : RequestBody) (fuel : Nat) (storeS : Store) :
    ((automatic_issuance rand license_type user_email store false).1 =
        (automatic_issuance rand license_type user_email store true).1 ∧
      (automatic_issuance rand license_type user_email store false).2.1 =
        (automatic_issuance rand license_type user_email store true).2.1 ∧
      docGet (automatic_issuance rand license_type user_email store false).2.1
          (automatic_issuance rand license_type user_email store false).1 =
        some (automaticAppRecord license_type)) ∧
    Option.map (fun t => (t.1, t.2.1))
        (server_issuance firebaseInitialized randS now storeOk body fuel storeS false) =
      Option.map (fun t => (t.1, t.2.1))
        (server_issuance firebaseInitialized randS now storeOk body fuel storeS true) := by
  refine ⟨⟨rfl, rfl, ?_⟩, ?_⟩
  · exact docGet_docSet_self store
      (generate_random_code appCodeCharacters appCodeLength rand)
      (automaticAppRecord license_type)
  · obtain ⟨blt, bue⟩ := body
    unfold server_issuance
    cases generate_code_endpoint firebaseInitialized randS now storeOk ⟨blt, bue⟩ fuel 0
        storeS with
    | none => rfl
    | some pr =>
        obtain ⟨resp, store2⟩ := pr
        obtain ⟨st, cd, sf, ef⟩ := resp
        cases cd with
        | none => rfl
        | some c =>
            cases bue with
            | none => rfl
            | some ue => rfl

/-! ### Claim C10 -/

/-- C10: the desktop and server code generators are not extensionally
equivalent — the desktop generator always emits 64 characters of the desktop
alphabet (letters, digits and its own symbol list), the server generator
always emits 50 characters of the server alphabet (letters, digits and
string.punctuation), the two alphabets differ, and no sequences of random
choices make the two generators emit the same string. -/
theorem C10_generators_not_equivalent :
    appCodeCharacters = ascii_letters ++ digits ++ app_extra_characters ∧
    serverCodeCharacters = ascii_letters ++ digits ++ punctuation ∧
    appCodeCharacters ≠ serverCodeCharacters ∧
    (∀ r : Nat → Nat,
      (generate_random_code appCodeCharacters appCodeLength r).length = 64 ∧
        ∀ ch ∈ (generate_random_code appCodeCharacters appCodeLength r).data,
          ch ∈ appCodeCharacters.data) ∧
    (∀ r : Nat → Nat,
      (generate_random_code serverCodeCharacters serverCodeLength r).length = 50 ∧
        ∀ ch ∈ (generate_random_code serverCodeCharacters serverCodeLength r).data,
          ch ∈ serverCodeCharacters.data) ∧
    ∀ r r2 : Nat → Nat,
      generate_random_code appCodeCharacters appCodeLength r ≠
        generate_random_code serverCodeCharacters serverCodeLength r2 := by
  refine ⟨rfl, rfl, by decide, ?_, ?_, ?_⟩
  · intro r
    exact ⟨generate_random_code_length _ _ _,
      generate_random_code_mem _ _ _ (by decide)⟩
  · intro r
    exact ⟨generate_random_code_length _ _ _,
      generate_random_code_mem _ _ _ (by decide)⟩
  · intro r r2 hcontra
    have h1 := generate_random_code_length appCodeCharacters appCodeLength r
    have h2 := generate_random_code_length serverCodeCharacters serverCodeLength r2
    rw [hcontra, h2] at h1
    exact absurd h1 (by decide)

/-! ### Claim C1 -/

/-- C1 counterexample: with a record already stored under the exact code that
the desktop automatic path is about to generate, `_generate_and_add_code_automatic`
still returns that code and replaces the fields of the existing record (an "annual"
manual record becomes a "monthly" automatic record), so this creation path
neither rejects nor retries on collision. -/
theorem C1_automatic_overwrite_counterexample :
    docGet [(appConstCode, manualRecord "annual")] appConstCode =
      some (manualRecord "annual") ∧
    (generate_and_add_code_automatic (fun _ => 0) "monthly" "user@example.com"
        [(appConstCode, manualRecord "annual")]).1 = appConstCode ∧
    docGet (generate_and_add_code_automatic (fun _ => 0) "monthly" "user@example.com"
        [(appConstCode, manualRecord "annual")]).2 appConstCode =
      some (automaticAppRecord "monthly") ∧
    automaticAppRecord "monthly" ≠ manualRecord "annual" := by
  refine ⟨by decide, by decide, by decide, by decide⟩

/-- C1 (amended): the desktop manual path and the server endpoint reject or
retry on collision and never overwrite — the code they return was absent from
the store, and every record present before the operation is stored unchanged
afterwards; the desktop automatic path gives no such guarantee. -/
theorem C1_manual_and_server_never_overwrite (rand : Nat → Nat → Nat)
    (license_type k : String) (r : LicenseRecord) :
    (∀ fuel attempt store new_code store2,
      docGet store k = some r →
      generate_and_add_code_manual rand license_type fuel attempt store =
        some (new_code, store2) →
      docGet store new_code = none ∧ docGet store2 k = some r) ∧
    (∀ firebaseInitialized now storeOk body fuel attempt store resp store2,
      docGet store k = some r →
      generate_code_endpoint firebaseInitialized rand now storeOk body fuel attempt store =
        some (resp, store2) →
      docGet store2 k = some r) := by
  constructor
  · intro fuel attempt store nc s2 hk hrun
    obtain ⟨i, hcode, habsent, hs2⟩ :=
      generate_and_add_code_manual_inv rand license_type fuel attempt store nc s2 hrun
    refine ⟨habsent, ?_⟩
    have hkc : k ≠ nc := by
      intro he
      rw [he, habsent] at hk
      exact Option.noConfusion hk
    rw [hs2, docGet_docSet_ne store nc k _ hkc]
    exact hk
  · intro fb now storeOk body fuel attempt store resp s2 hk hrun
    rcases generate_code_endpoint_inv fb rand now storeOk body fuel attempt store resp s2
        hrun with
      ⟨_, _, h2⟩ | ⟨_, _, _, h2⟩ | ⟨_, _, _, _, h2⟩ |
      ⟨_, _, lt, ue, i, _, _, _, habsent, h2⟩
    · rw [h2]; exact hk
    · rw [h2]; exact hk
    · rw [h2]; exact hk
    · have hkc : k ≠ generate_random_code serverCodeCharacters serverCodeLength (rand i) := by
        intro he
        rw [he, habsent] at hk
        exact Option.noConfusion hk
      rw [h2, docGet_docSet_ne store _ k _ hkc]
      exact hk

/-- C1 witness: C1_manual_and_server_never_overwrite on a one-record store
holding the key "OTHER", with the constant-zero random stream and one unit of
fuel on each path. -/
theorem C1_never_overwrite_witness :
    docGet (docSet [("OTHER", manualRecord "annual")] appConstCode (manualRecord "monthly"))
        "OTHER" = some (manualRecord "annual") ∧
    docGet (docSet [("OTHER", manualRecord "annual")] serverConstCode
        (serverRecord "monthly" "user@example.com" 0)) "OTHER" =
      some (manualRecord "annual") := by
  constructor
  · exact ((C1_manual_and_server_never_overwrite (fun _ _ => 0) "monthly" "OTHER"
      (manualRecord "annual")).1 1 0 [("OTHER", manualRecord "annual")] appConstCode
      (docSet [("OTHER", manualRecord "annual")] appConstCode (manualRecord "monthly"))
      (by decide) (by decide)).2
  · exact (C1_manual_and_server_never_overwrite (fun _ _ => 0) "monthly" "OTHER"
      (manualRecord "annual")).2 true 0 true ⟨some "monthly", some "user@example.com"⟩ 1 0
      [("OTHER", manualRecord "annual")]
      ⟨200, some serverConstCode, none, none⟩
      (docSet [("OTHER", manualRecord "annual")] serverConstCode
        (serverRecord "monthly" "user@example.com" 0))
      (by decide) (by decide)

/-! ### Claim C3 -/

/-- C3: the collision-retry loops of the literal code are unbounded — with a
store already holding the code that the constant-zero random stream produces,
both the desktop manual path and the server endpoint are still retrying after
every number of attempts and never terminate with a failure outcome such as
ExhaustedRetries (no such outcome exists in either result type). -/
theorem C3_retry_never_exhausts :
    ∀ fuel attempt,
      generate_and_add_code_manual (fun _ _ => 0) "monthly" fuel attempt
          [(appConstCode, manualRecord "monthly")] = none ∧
      generate_code_endpoint true (fun _ _ => 0) 0 true
          ⟨some "monthly", some "user@example.com"⟩ fuel attempt
          [(serverConstCode, manualRecord "monthly")] = none := by
  intro fuel
  induction fuel with
  | zero => intro attempt; exact ⟨rfl, rfl⟩
  | succ n ih =>
      intro attempt
      have hga : docGet [(appConstCode, manualRecord "monthly")]
          (generate_random_code appCodeCharacters appCodeLength (fun _ => 0)) =
          some (manualRecord "monthly") := by decide
      have hgs : docGet [(serverConstCode, manualRecord "monthly")]
          (generate_random_code serverCodeCharacters serverCodeLength (fun _ => 0)) =
          some (manualRecord "monthly") := by decide
      constructor
      · simp only [generate_and_add_code_manual]
        rw [hga]
        exact (ih (attempt + 1)).1
      · simp only [generate_code_endpoint]
        rw [if_neg (by decide)]
        rw [if_neg (by decide)]
        rw [hgs]
        exact (ih (attempt + 1)).2

/-! ### Claim C4 -/

/-- C4: every record written by a creation operation has used_globally = false,
used_date and used_by_machine_id absent, and generated_date set to the store
server-side timestamp sentinel, never a client clock value. -/
theorem C4_creation_record_fields (license_type user_email : String) :
    (∀ rand fuel attempt store new_code store2,
      generate_and_add_code_manual rand license_type fuel attempt store =
        some (new_code, store2) →
      ∃ rec, docGet store2 new_code = some rec ∧
        rec.used_globally = false ∧ rec.used_date = none ∧
        rec.used_by_machine_id = none ∧
        rec.generated_date = DateValue.serverTimestamp) ∧
    (∀ rand store,
      ∃ rec,
        docGet (generate_and_add_code_automatic rand license_type user_email store).2
            (generate_and_add_code_automatic rand license_type user_email store).1 =
          some rec ∧
        rec.used_globally = false ∧ rec.used_date = none ∧
        rec.used_by_machine_id = none ∧
        rec.generated_date = DateValue.serverTimestamp) ∧
    (∀ firebaseInitialized rand now storeOk body fuel attempt store resp store2 new_code,
      generate_code_endpoint firebaseInitialized rand now storeOk body fuel attempt store =
        some (resp, store2) →
      resp.code = some new_code →
      ∃ rec, docGet store2 new_code = some rec ∧
        rec.used_globally = false ∧ rec.used_date = none ∧
        rec.used_by_machine_id = none ∧
        rec.generated_date = DateValue.serverTimestamp) := by
  refine ⟨?_, ?_, ?_⟩
  · intro rand fuel attempt store nc s2 hrun
    obtain ⟨i, hcode, habsent, hs2⟩ :=
      generate_and_add_code_manual_inv rand license_type fuel attempt store nc s2 hrun
    refine ⟨manualRecord license_type, ?_, rfl, rfl, rfl, rfl⟩
    rw [hs2]
    exact docGet_docSet_self store nc _
  · intro rand store
    exact ⟨automaticAppRecord license_type,
      docGet_docSet_self store _ _, rfl, rfl, rfl, rfl⟩
  · intro fb rand now storeOk body fuel attempt store resp s2 nc hrun hcode
    rcases generate_code_endpoint_inv fb rand now storeOk body fuel attempt store resp s2
        hrun with
      ⟨_, hresp, _⟩ | ⟨_, _, hresp, _⟩ | ⟨_, _, _, hresp, _⟩ |
      ⟨_, _, lt, ue, i, _, _, hresp, habsent, hs2⟩
    · rw [hresp] at hcode
      exact Option.noConfusion hcode
    · rw [hresp] at hcode
      exact Option.noConfusion hcode
    · rw [hresp] at hcode
      exact Option.noConfusion hcode
    · rw [hresp] at hcode
      have hnc : nc = generate_random_code serverCodeCharacters serverCodeLength (rand i) :=
        (Option.some.inj hcode).symm
      subst hnc
      refine ⟨serverRecord lt ue now, ?_, rfl, rfl, rfl, rfl⟩
      rw [hs2]
      exact docGet_docSet_self store _ _

/-- C4 witness: C4_creation_record_fields on the empty store, constant-zero
random streams, one unit of fuel, license_type "monthly". -/
theorem C4_creation_record_fields_witness :
    (∃ rec, docGet (docSet [] appConstCode (manualRecord "monthly")) appConstCode =
        some rec ∧
      rec.used_globally = false ∧ rec.used_date = none ∧
      rec.used_by_machine_id = none ∧
      rec.generated_date = DateValue.serverTimestamp) ∧
    (∃ rec,
      docGet (generate_and_add_code_automatic (fun _ => 0) "monthly" "user@example.com"
            []).2
          (generate_and_add_code_automatic (fun _ => 0) "monthly" "user@example.com" []).1 =
        some rec ∧
      rec.used_globally = false ∧ rec.used_date = none ∧
      rec.used_by_machine_id = none ∧
      rec.generated_date = DateValue.serverTimestamp) ∧
    (∃ rec, docGet (docSet [] serverConstCode (serverRecord "monthly" "user@example.com" 0))
        serverConstCode = some rec ∧
      rec.used_globally = false ∧ rec.used_date = none ∧
      rec.used_by_machine_id = none ∧
      rec.generated_date = DateValue.serverTimestamp) :=
  ⟨(C4_creation_record_fields "monthly" "user@example.com").1 (fun _ _ => 0) 1 0 []
      appConstCode (docSet [] appConstCode (manualRecord "monthly")) (by decide),
    (C4_creation_record_fields "monthly" "user@example.com").2.1 (fun _ => 0) [],
    (C4_creation_record_fields "monthly" "user@example.com").2.2 true (fun _ _ => 0) 0 true
      ⟨some "monthly", some "user@example.com"⟩ 1 0 []
      ⟨200, some serverConstCode, none, none⟩
      (docSet [] serverConstCode (serverRecord "monthly" "user@example.com" 0))
      serverConstCode (by decide) (by decide)⟩

/-! ### Claim C6 -/

/-- C6: for license_type "monthly" or "annual", each creation operation returns
a code of exactly the configured length, every character of which belongs to
the configured alphabet (desktop: 64 over appCodeCharacters; server: 50 over
serverCodeCharacters). -/
theorem C6_code_format (license_type : String)
    (hvalid : license_type = "monthly" ∨ license_type = "annual") :
    (∀ rand fuel attempt store new_code store2,
      generate_and_add_code_manual rand license_type fuel attempt store =
        some (new_code, store2) →
      new_code.length = appCodeLength ∧
        ∀ ch ∈ new_code.data, ch ∈ appCodeCharacters.data) ∧
    (∀ rand user_email store,
      (generate_and_add_code_automatic rand license_type user_email store).1.length =
          appCodeLength ∧
        ∀ ch ∈ (generate_and_add_code_automatic rand license_type user_email store).1.data,
          ch ∈ appCodeCharacters.data) ∧
    (∀ firebaseInitialized rand now storeOk body fuel attempt store resp store2 new_code,
      generate_code_endpoint firebaseInitialized rand now storeOk body fuel attempt store =
        some (resp, store2) →
      resp.code = some new_code →
      new_code.length = serverCodeLength ∧
        ∀ ch ∈ new_code.data, ch ∈ serverCodeCharacters.data) := by
  refine ⟨?_, ?_, ?_⟩
  · intro rand fuel attempt store nc s2 hrun
    obtain ⟨i, hcode, _, _⟩ :=
      generate_and_add_code_manual_inv rand license_type fuel attempt store nc s2 hrun
    subst hcode
    exact ⟨generate_random_code_length _ _ _,
      generate_random_code_mem _ _ _ (by decide)⟩
  · intro rand ue store
    exact ⟨generate_random_code_length _ _ _,
      generate_random_code_mem _ _ _ (by decide)⟩
  · intro fb rand now storeOk body fuel attempt store resp s2 nc hrun hcode
    rcases generate_code_endpoint_inv fb rand now storeOk body fuel attempt store resp s2
        hrun with
      ⟨_, hresp, _⟩ | ⟨_, _, hresp, _⟩ | ⟨_, _, _, hresp, _⟩ |
      ⟨_, _, lt, ue, i, _, _, hresp, _, _⟩
    · rw [hresp] at hcode
      exact Option.noConfusion hcode
    · rw [hresp] at hcode
      exact Option.noConfusion hcode
    · rw [hresp] at hcode
      exact Option.noConfusion hcode
    · rw [hresp] at hcode
      have hnc : nc = generate_random_code serverCodeCharacters serverCodeLength (rand i) :=
        (Option.some.inj hcode).symm
      subst hnc
      exact ⟨generate_random_code_length _ _ _,
        generate_random_code_mem _ _ _ (by decide)⟩

/-- C6 witness: C6_code_format with license_type "monthly", the empty store and
constant-zero random streams. -/
theorem C6_code_format_witness :
    (appConstCode.length = appCodeLength ∧
      ∀ ch ∈ appConstCode.data, ch ∈ appCodeCharacters.data) ∧
    ((generate_and_add_code_automatic (fun _ => 0) "monthly" "user@example.com"
          []).1.length = appCodeLength ∧
      ∀ ch ∈ (generate_and_add_code_automatic (fun _ => 0) "monthly" "user@example.com"
          []).1.data,
        ch ∈ appCodeCharacters.data) ∧
    (serverConstCode.length = serverCodeLength ∧
      ∀ ch ∈ serverConstCode.data, ch ∈ serverCodeCharacters.data) :=
  ⟨(C6_code_format "monthly" (Or.inl rfl)).1 (fun _ _ => 0) 1 0 [] appConstCode
      (docSet [] appConstCode (manualRecord "monthly")) (by decide),
    (C6_code_format "monthly" (Or.inl rfl)).2.1 (fun _ => 0) "user@example.com" [],
    (C6_code_format "monthly" (Or.inl rfl)).2.2 true (fun _ _ => 0) 0 true
      ⟨some "monthly", some "user@example.com"⟩ 1 0 []
      ⟨200, some serverConstCode, none, none⟩
      (docSet [] serverConstCode (serverRecord "monthly" "user@example.com" 0))
      serverConstCode (by decide) (by decide)⟩

/-! ### Claim C7 -/

/-- C7 counterexample: the desktop app also serves POST /generate_code, and on a
valid body it answers 200 with a body that does NOT contain the generated code
(only an acknowledgment message; generation is deferred to the Tk main loop),
so the 200-implies-code-in-body part of the claim fails on that route. -/
theorem C7_app_endpoint_counterexample :
    (app_generate_code_endpoint ⟨some "monthly", some "user@example.com"⟩).1.httpStatus =
      200 ∧
    (app_generate_code_endpoint ⟨some "monthly", some "user@example.com"⟩).1.code =
      none := by
  exact ⟨rfl, rfl⟩

/-- C7 (amended): the POST route of the standalone server at /generate_code answers 500 when
firebase is uninitialized or the store write fails, 400 when either field is
missing, and otherwise 200 with the generated code in the body; its GET
/health answers 200 with status "ok".  The desktop app route POST /generate_code
answers 400 on a missing field, but on a valid body answers 200 with an
acknowledgment carrying no code, scheduling generation for later. -/
theorem C7_http_contract :
    (∀ rand now storeOk body fuel attempt store resp store2,
      generate_code_endpoint false rand now storeOk body fuel attempt store =
        some (resp, store2) →
      resp.httpStatus = 500) ∧
    (∀ rand now lt ue fuel attempt store resp store2,
      generate_code_endpoint true rand now false ⟨some lt, some ue⟩ fuel attempt store =
        some (resp, store2) →
      resp.httpStatus = 500) ∧
    (∀ rand now storeOk body fuel attempt store resp store2,
      body.license_type = none ∨ body.user_email = none →
      generate_code_endpoint true rand now storeOk body fuel attempt store =
        some (resp, store2) →
      resp.httpStatus = 400) ∧
    (∀ rand now lt ue fuel attempt store resp store2,
      generate_code_endpoint true rand now true ⟨some lt, some ue⟩ fuel attempt store =
        some (resp, store2) →
      resp.httpStatus = 200 ∧ ∃ c, resp.code = some c) ∧
    (health_check.httpStatus = 200 ∧ health_check.statusField = some "ok") ∧
    (∀ lt ue,
      (app_generate_code_endpoint ⟨some lt, some ue⟩).1.httpStatus = 200 ∧
      (app_generate_code_endpoint ⟨some lt, some ue⟩).1.code = none ∧
      (app_generate_code_endpoint ⟨some lt, some ue⟩).2 = some (lt, ue)) ∧
    (∀ body : RequestBody,
      body.license_type = none ∨ body.user_email = none →
      (app_generate_code_endpoint body).1.httpStatus = 400) := by
  refine ⟨?_, ?_, ?_, ?_, ⟨rfl, rfl⟩, ?_, ?_⟩
  · intro rand now storeOk body fuel attempt store resp s2 hrun
    rcases generate_code_endpoint_inv false rand now storeOk body fuel attempt store resp s2
        hrun with
      ⟨_, hresp, _⟩ | ⟨hfb, _⟩ | ⟨hfb, _⟩ | ⟨hfb, _⟩
    · rw [hresp]
    · exact absurd hfb (by decide)
    · exact absurd hfb (by decide)
    · exact absurd hfb (by decide)
  · intro rand now lt ue fuel attempt store resp s2 hrun
    rcases generate_code_endpoint_inv true rand now false ⟨some lt, some ue⟩ fuel attempt
        store resp s2 hrun with
      ⟨hfb, _⟩ | ⟨_, hmiss, _⟩ | ⟨_, _, _, hresp, _⟩ | ⟨_, hso, _⟩
    · exact absurd hfb (by decide)
    · rcases hmiss with h | h
      · exact Option.noConfusion h
      · exact Option.noConfusion h
    · rw [hresp]
    · exact absurd hso (by decide)
  · intro rand now storeOk body fuel attempt store resp s2 hmiss hrun
    rcases generate_code_endpoint_inv true rand now storeOk body fuel attempt store resp s2
        hrun with
      ⟨hfb, _⟩ | ⟨_, _, hresp, _⟩ | ⟨_, _, ⟨lt, ue, hbl, hbu⟩, _⟩ |
      ⟨_, _, lt, ue, i, hbl, hbu, _⟩
    · exact absurd hfb (by decide)
    · rw [hresp]
    · rcases hmiss with h | h
      · rw [h] at hbl
        exact Option.noConfusion hbl
      · rw [h] at hbu
        exact Option.noConfusion hbu
    · rcases hmiss with h | h
      · rw [h] at hbl
        exact Option.noConfusion hbl
      · rw [h] at hbu
        exact Option.noConfusion hbu
  · intro rand now lt ue fuel attempt store resp s2 hrun
    rcases generate_code_endpoint_inv true rand now true ⟨some lt, some ue⟩ fuel attempt
        store resp s2 hrun with
      ⟨hfb, _⟩ | ⟨_, hmiss, _⟩ | ⟨_, hso, _⟩ | ⟨_, _, lt2, ue2, i, _, _, hresp, _⟩
    · exact absurd hfb (by decide)
    · rcases hmiss with h | h
      · exact Option.noConfusion h
      · exact Option.noConfusion h
    · exact absurd hso (by decide)
    · rw [hresp]
      exact ⟨rfl, _, rfl⟩
  · intro lt ue
    exact ⟨rfl, rfl, rfl⟩
  · intro body hmiss
    obtain ⟨blt, bue⟩ := body
    rcases hmiss with h | h
    · have hb : blt = none := h
      subst hb
      cases bue with
      | none => rfl
      | some ue => rfl
    · have hb : bue = none := h
      subst hb
      cases blt with
      | none => rfl
      | some lt => rfl

/-- C7 witness: each clause of C7_http_contract at concrete inputs — empty
store, constant-zero random streams, one unit of fuel, license_type "monthly"
and user_email "user@example.com". -/
theorem C7_http_contract_witness :
    (⟨500, none, none, some "Firebase is not initialized."⟩ : HttpResponse).httpStatus =
      500 ∧
    (⟨500, none, none, some "Failed to add code to Firestore."⟩ : HttpResponse).httpStatus =
      500 ∧
    (⟨400, none, none,
        some "Missing license_type or user_email in request body."⟩ :
      HttpResponse).httpStatus = 400 ∧
    ((⟨200, some serverConstCode, none, none⟩ : HttpResponse).httpStatus = 200 ∧
      ∃ c, (⟨200, some serverConstCode, none, none⟩ : HttpResponse).code = some c) ∧
    ((app_generate_code_endpoint ⟨some "monthly", some "user@example.com"⟩).1.httpStatus =
        200 ∧
      (app_generate_code_endpoint ⟨some "monthly", some "user@example.com"⟩).1.code =
        none ∧
      (app_generate_code_endpoint ⟨some "monthly", some "user@example.com"⟩).2 =
        some ("monthly", "user@example.com")) ∧
    (app_generate_code_endpoint ⟨none, some "user@example.com"⟩).1.httpStatus = 400 :=
  ⟨C7_http_contract.1 (fun _ _ => 0) 0 true ⟨some "monthly", some "user@example.com"⟩ 1 0 []
      ⟨500, none, none, some "Firebase is not initialized."⟩ [] (by decide),
    C7_http_contract.2.1 (fun _ _ => 0) 0 "monthly" "user@example.com" 1 0 []
      ⟨500, none, none, some "Failed to add code to Firestore."⟩ [] (by decide),
    C7_http_contract.2.2.1 (fun _ _ => 0) 0 true ⟨none, some "user@example.com"⟩ 1 0 []
      ⟨400, none, none, some "Missing license_type or user_email in request body."⟩ []
      (Or.inl rfl) (by decide),
    C7_http_contract.2.2.2.1 (fun _ _ => 0) 0 "monthly" "user@example.com" 1 0 []
      ⟨200, some serverConstCode, none, none⟩
      (docSet [] serverConstCode (serverRecord "monthly" "user@example.com" 0))
      (by decide),
    C7_http_contract.2.2.2.2.2.1 "monthly" "user@example.com",
    C7_http_contract.2.2.2.2.2.2 ⟨none, some "user@example.com"⟩ (Or.inl rfl)⟩

example : punctuation.length = 32 := by decide
example : appCodeCharacters.length = 88 := by decide
example : serverCodeCharacters.length = 94 := by decide
example : generate_random_code appCodeCharacters appCodeLength (fun _ => 0) = appConstCode := by
  decide
example : generate_random_code serverCodeCharacters serverCodeLength (fun _ => 0) =
    serverConstCode := by decide

end SalesCodeGen
